import Mathlib

/-!
Verification of the sqlite prepared-statement wrapper
(`rosbag2_storage_default_plugins/sqlite/sqlite_statement_wrapper.hpp`).

The header defines `SqliteStatementWrapper`, a typed wrapper around a native
sqlite prepared statement, with a compile-time-typed `QueryResult` row sequence
and its input `Iterator`.  We embed the statement handle's observable state as
a record, native stepping as explicit state passing, and exceptions as
`Except`.  Column values are modelled by `Nat` and blob buffers by `List Nat`;
rows of arity `n` are lists of length `n` (the C++ row is an `n`-tuple built
positionally, which a list models faithfully for positional claims).

Functions whose bodies appear in the header (`Iterator`'s constructor,
`operator++`, `operator++(int)`, `operator*`, `operator==`, `operator!=`,
`begin`, `end`, the variadic `bind`, `check_and_report_bind_error`,
`obtain_row_values_impl`) are translated from that source.  Functions only
declared there (`step`, the single-value `bind` overloads,
`obtain_column_value`, `reset`, `execute_and_reset`) are modelled from the
specification and carry a doc comment saying so.
-/

namespace Rosbag2Sqlite

/-- The error signal thrown by the wrapper (`SqliteException`): a message. -/
structure SqliteException where
  message : String
deriving Repr, DecidableEq

/-- Native success return code (`SQLITE_OK`). -/
def SQLITE_OK : Int := 0

/-- Observable state of one `SqliteStatementWrapper` (one native prepared
statement).  `rows` is the full result set the prepared query produces, an
attribute of the external engine's state reachable through the native
resource; `pos` counts the `step()` calls made on the shared native cursor
(after the k-th successful step, row k — 1-based — is the current row);
`last_bound_parameter_index` and `written_blobs_cache` are the two fields of
the C++ class besides the native pointer; `bind_rcs` is a script of native
bind return codes from the external engine, consumed one per bind call and
defaulting to success when exhausted. -/
structure SqliteStatementWrapper where
  rows : List (List Nat)
  pos : Nat
  last_bound_parameter_index : Nat
  written_blobs_cache : List (List Nat)
  bind_rcs : List Int
deriving Repr, DecidableEq

namespace SqliteStatementWrapper

/-- Modelled from the spec: `step()` — its body is not under src/ (only the
declaration is).  Per the spec, `step()` "advances the native cursor by one
row" and returns whether a row is available ("row available" vs "no more
rows"); its side effect "mutates the shared native cursor position; visible to
any Row Sequence built on this handle".  A row is available on the k-th step
exactly when the result set has at least k rows.  (The third outcome,
`StepError` on an engine-reported error code, is a failure of the external
engine not determined by the statement's state and is outside this model; the
claims below concern only the row/done outcomes.) -/
def step (s : SqliteStatementWrapper) : Bool × SqliteStatementWrapper :=
  (decide (s.pos < s.rows.length), { s with pos := s.pos + 1 })

/-- The row the shared native cursor currently exposes: row `pos` (1-based) of
the result set, i.e. `rows[pos-1]`; `[]` when no step has happened yet or the
cursor has moved past the last row. -/
def currentRow (s : SqliteStatementWrapper) : List Nat :=
  if s.pos = 0 then [] else s.rows.getD (s.pos - 1) []

/-- Modelled from the spec: `obtain_column_value` (the Column Value Codec) —
its body is not under src/ (only the overload declarations are).  Per the
spec, "column extraction is positional and 0-indexed" and current-value
extraction is "pure with respect to cursor position (does not itself
advance)", so the codec reads column `index` of the current row and leaves the
statement unchanged; the unchanged statement is returned to make that frame
explicit. -/
def obtain_column_value (s : SqliteStatementWrapper) (index : Nat) :
    Nat × SqliteStatementWrapper :=
  ((s.currentRow).getD index 0, s)

/-- `check_and_report_bind_error` (header, lines 175-191): throws a
`SqliteException` whose message is built from the literal text, the current
`last_bound_parameter_index_` and the value's string form when the return
code is not `SQLITE_OK`, and does nothing otherwise.  The C++ member returns
`void` and touches no field; the embedding returns the unchanged statement on
success to make that frame explicit. -/
def check_and_report_bind_error (s : SqliteStatementWrapper)
    (return_code : Int) (value : String) :
    Except SqliteException SqliteStatementWrapper :=
  if return_code ≠ SQLITE_OK then
    .error ⟨"SQLite error when binding parameter " ++
      toString s.last_bound_parameter_index ++ " to value '" ++ value ++
      ("'. Return code: " ++ toString return_code)⟩
  else
    .ok s

end SqliteStatementWrapper

/-- The five supported bound-parameter kinds: signed integer, time value,
double-precision float (modelled by its bit pattern as an integer — no
floating-point arithmetic happens in the wrapper, the value is passed
through), text, binary blob. -/
inductive BindValue where
  | int (i : Int)
  | time (t : Int)
  | real (bits : Int)
  | text (v : String)
  | blob (b : List Nat)
deriving Repr, DecidableEq

/-- The string form of a bound value used in bind-error messages
(`std::to_string` for the numeric overloads, the string itself for the
`std::string` specialization, a size description for blobs). -/
def bindValueToString : BindValue → String
  | .int i => toString i
  | .time t => toString t
  | .real bits => toString bits
  | .text v => v
  | .blob b => toString b.length

namespace SqliteStatementWrapper

/-- Consume the next native bind return code from the engine script
(success when the script is exhausted). -/
def takeBindRC (s : SqliteStatementWrapper) : Int × SqliteStatementWrapper :=
  match s.bind_rcs with
  | [] => (SQLITE_OK, s)
  | rc :: rest => (rc, { s with bind_rcs := rest })

/-- Modelled from the spec: the single-value `bind` overloads — their bodies
are not under src/ (only the declarations are).  Per the spec: "binds the next
positional parameter (index = previous index + 1)"; "for blob values, the
handle retains ownership of the buffer in its Blob Lifetime Cache before
issuing the native bind call"; "fails with `BindError` (embedding the
offending index and a string form of the value) when the native bind call
reports a non-success code" — the failure goes through
`check_and_report_bind_error`, whose body is in the header. -/
def bind (s : SqliteStatementWrapper) (value : BindValue) :
    Except SqliteException SqliteStatementWrapper :=
  let s1 := { s with
    last_bound_parameter_index := s.last_bound_parameter_index + 1 }
  let s2 := match value with
    | .blob b => { s1 with written_blobs_cache := s1.written_blobs_cache ++ [b] }
    | _ => s1
  let (rc, s3) := s2.takeBindRC
  s3.check_and_report_bind_error rc (bindValueToString value)

/-- The variadic `bind(T1 value1, T2 value2, Params ... values)` (header,
lines 166-173): `bind(value1); return bind(value2, values ...);` — the inner
call is the single-value overload when `values` is empty and the variadic
overload again otherwise; an exception from either call propagates. -/
def bindVariadic (s : SqliteStatementWrapper) (value1 value2 : BindValue) :
    List BindValue → Except SqliteException SqliteStatementWrapper
  | [] =>
    match s.bind value1 with
    | .error e => .error e
    | .ok s1 => s1.bind value2
  | value3 :: values =>
    match s.bind value1 with
    | .error e => .error e
    | .ok s1 => s1.bindVariadic value2 value3 values

/-- The spec's words for the variadic form's meaning: "semantics identical to
an equivalent sequence of single `bind` calls", applied "left-to-right".
This definition follows the spec's words, to be compared with
`bindVariadic` above, which is translated from the source. -/
def bindSeq (s : SqliteStatementWrapper) :
    List BindValue → Except SqliteException SqliteStatementWrapper
  | [] => .ok s
  | v :: values =>
    match s.bind v with
    | .error e => .error e
    | .ok s1 => s1.bindSeq values

/-- Modelled from the spec: `reset()` — its body is not under src/ (only the
declaration is).  Per the spec, it "returns the statement to its
pre-execution state" (the native cursor is rewound), "clears the Blob
Lifetime Cache", and "resets the parameter index counter to zero". -/
def reset (s : SqliteStatementWrapper) : SqliteStatementWrapper :=
  { s with pos := 0, last_bound_parameter_index := 0, written_blobs_cache := [] }

/-- Modelled from the spec: `execute_and_reset()` — its body is not under
src/ (only the declaration is).  Per the spec, it "steps once to completion,
ignoring row data, then resets". -/
def execute_and_reset (s : SqliteStatementWrapper) : SqliteStatementWrapper :=
  (s.step).2.reset

end SqliteStatementWrapper

/-- `Iterator::POSITION_END` (header, line 49). -/
def POSITION_END : Int := -1

/-- A `QueryResult::Iterator`: it holds a `shared_ptr` to the statement and
its `next_row_idx_`.  The shared pointer is modelled by the identity of the
handle it manages (`statement`); the pointed-to mutable state is the
`SqliteStatementWrapper` record threaded through the operations below, shared
by every iterator of the same handle. -/
structure Iterator where
  statement : Nat
  next_row_idx : Int
deriving Repr, DecidableEq

namespace Iterator

/-- The `Iterator(statement, position)` constructor (header, lines 50-60):
stores the position; when it is not `POSITION_END`, steps the handle once and
either increments the stored position (row available) or sets it to
`POSITION_END` (no rows). -/
def make (statement : Nat) (position : Int) (s : SqliteStatementWrapper) :
    Iterator × SqliteStatementWrapper :=
  if position ≠ POSITION_END then
    let (hasRow, s1) := s.step
    if hasRow then (⟨statement, position + 1⟩, s1)
    else (⟨statement, POSITION_END⟩, s1)
  else
    (⟨statement, position⟩, s)

/-- `operator++` (header, lines 62-74): when not at `POSITION_END`, steps the
handle and either increments the position or marks it `POSITION_END`;
otherwise throws without touching the handle.  The statement state is
returned alongside the `Except` so the frame on the throwing path is
visible. -/
def inc (it : Iterator) (s : SqliteStatementWrapper) :
    Except SqliteException Iterator × SqliteStatementWrapper :=
  if it.next_row_idx ≠ POSITION_END then
    let (hasRow, s1) := s.step
    if hasRow then (.ok { it with next_row_idx := it.next_row_idx + 1 }, s1)
    else (.ok { it with next_row_idx := POSITION_END }, s1)
  else
    (.error ⟨"Cannot increment result iterator beyond result set!"⟩, s)

/-- Post-increment `operator++(int)` (header, lines 75-80): copies the
iterator (`auto old_value = *this` — the copy shares the statement pointer
and keeps the pre-increment `next_row_idx_`), pre-increments `*this`, and
returns the copy.  The result pairs (old copy, incremented iterator). -/
def postInc (it : Iterator) (s : SqliteStatementWrapper) :
    Except SqliteException (Iterator × Iterator) × SqliteStatementWrapper :=
  let old_value := it
  match it.inc s with
  | (.ok it1, s1) => (.ok (old_value, it1), s1)
  | (.error e, s1) => (.error e, s1)

/-- `obtain_row_values_impl` (header, lines 105-111): structural recursion
over the remaining column indices; reads column `I` through the codec, then
recurses on the rest; the empty index sequence ends the recursion.  The codec
call threads the statement state. -/
def obtain_row_values_impl (it : Iterator) (s : SqliteStatementWrapper) :
    List Nat → List Nat × SqliteStatementWrapper
  | [] => ([], s)
  | i :: is =>
    let (v, s1) := s.obtain_column_value i
    let (vs, s2) := it.obtain_row_values_impl s1 is
    (v :: vs, s2)

/-- `operator*` together with `obtain_row_values` (header, lines 82-103):
builds the row by running `obtain_row_values_impl` over
`index_sequence_for<Columns...>`, i.e. the ascending indices `0, …, n-1`
where `n` is the row arity. -/
def deref (it : Iterator) (n : Nat) (s : SqliteStatementWrapper) :
    List Nat × SqliteStatementWrapper :=
  it.obtain_row_values_impl s (List.range n)

/-- `operator==` (header, lines 89-92): same statement (shared-pointer
comparison — same managed handle) and same `next_row_idx_`. -/
def eq (a b : Iterator) : Bool :=
  a.statement == b.statement && a.next_row_idx == b.next_row_idx

/-- `operator!=` (header, lines 93-96): `!(*this == other)`. -/
def ne (a b : Iterator) : Bool :=
  !(a.eq b)

end Iterator

/-- `QueryResult<Columns...>`: holds the shared statement handle (modelled by
its identity; the handle's mutable state is threaded explicitly). -/
structure QueryResult where
  statement : Nat
deriving Repr, DecidableEq

namespace QueryResult

/-- `QueryResult::begin` (header, lines 121-124): `Iterator(statement_, 0)`. -/
def begin (q : QueryResult) (s : SqliteStatementWrapper) :
    Iterator × SqliteStatementWrapper :=
  Iterator.make q.statement 0 s

/-- `QueryResult::end` (header, lines 125-128):
`Iterator(statement_, Iterator::POSITION_END)`. -/
def endIter (q : QueryResult) (s : SqliteStatementWrapper) :
    Iterator × SqliteStatementWrapper :=
  Iterator.make q.statement POSITION_END s

end QueryResult

/-- Advance an iterator `k` times with `operator++`, threading the shared
statement state; a thrown exception aborts the run. -/
def advanceK : Nat → Iterator × SqliteStatementWrapper →
    Except SqliteException (Iterator × SqliteStatementWrapper)
  | 0, p => .ok p
  | k + 1, (it, s) =>
    match it.inc s with
    | (.ok it1, s1) => advanceK k (it1, s1)
    | (.error e, _) => .error e

/-- A freshly prepared (or freshly reset) statement over a given result set:
no step taken yet, parameter counter at zero, empty blob cache, engine bind
script empty (all binds succeed). -/
def freshStmt (rows : List (List Nat)) : SqliteStatementWrapper :=
  ⟨rows, 0, 0, [], []⟩

/-! ### Helper lemmas (shared; none of these is a claim's theorem) -/

theorem inc_of_row {it : Iterator} {s : SqliteStatementWrapper}
    (h1 : it.next_row_idx ≠ POSITION_END) (h2 : s.pos < s.rows.length) :
    it.inc s = (.ok { it with next_row_idx := it.next_row_idx + 1 },
      { s with pos := s.pos + 1 }) := by
  simp [Iterator.inc, SqliteStatementWrapper.step, h1, h2]

theorem inc_of_done {it : Iterator} {s : SqliteStatementWrapper}
    (h1 : it.next_row_idx ≠ POSITION_END) (h2 : ¬ s.pos < s.rows.length) :
    it.inc s = (.ok { it with next_row_idx := POSITION_END },
      { s with pos := s.pos + 1 }) := by
  simp [Iterator.inc, SqliteStatementWrapper.step, h1, h2]

theorem inc_of_end {it : Iterator} (s : SqliteStatementWrapper)
    (h : it.next_row_idx = POSITION_END) :
    it.inc s = (.error ⟨"Cannot increment result iterator beyond result set!"⟩, s) := by
  simp [Iterator.inc, h]

theorem advanceK_run (rows : List (List Nat)) (sid lb : Nat)
    (cache : List (List Nat)) (rcs : List Int) :
    ∀ (k j : Nat), 1 ≤ j → j + k ≤ rows.length →
      advanceK k (⟨sid, (j : Int)⟩, ⟨rows, j, lb, cache, rcs⟩) =
        .ok (⟨sid, ((j + k : Nat) : Int)⟩, ⟨rows, j + k, lb, cache, rcs⟩) := by
  intro k
  induction k with
  | zero => intro j hj hle; simp [advanceK]
  | succ k ih =>
    intro j hj hle
    have h1 : ((j : Int)) ≠ POSITION_END := by
      simp only [POSITION_END]; omega
    have h2 : (⟨rows, j, lb, cache, rcs⟩ : SqliteStatementWrapper).pos <
        (⟨rows, j, lb, cache, rcs⟩ : SqliteStatementWrapper).rows.length := by
      show j < rows.length; omega
    have hstep := @inc_of_row ⟨sid, (j : Int)⟩ ⟨rows, j, lb, cache, rcs⟩ h1 h2
    have hcast : ((j : Int)) + 1 = ((j + 1 : Nat) : Int) := by push_cast; ring
    rw [hcast] at hstep
    simp only [advanceK, hstep]
    have := ih (j + 1) (by omega) (by omega)
    rw [this]
    have harith : j + 1 + k = j + (k + 1) := by omega
    rw [harith]

theorem advanceK_add (m n : Nat) (p : Iterator × SqliteStatementWrapper) :
    advanceK (m + n) p = (advanceK m p).bind (advanceK n) := by
  induction m generalizing p with
  | zero => simp [advanceK, Except.bind]
  | succ m ih =>
    obtain ⟨it, s⟩ := p
    have harith : m + 1 + n = (m + n) + 1 := by omega
    rw [harith]
    rcases hinc : it.inc s with ⟨r, s1⟩
    cases r with
    | ok it1 => simp only [advanceK, hinc]; exact ih (it1, s1)
    | error e => simp [advanceK, hinc, Except.bind]

theorem obtain_row_values_impl_run (it : Iterator) (s : SqliteStatementWrapper)
    (is : List Nat) :
    it.obtain_row_values_impl s is =
      (is.map (fun i => (s.obtain_column_value i).1), s) := by
  induction is with
  | nil => simp [Iterator.obtain_row_values_impl]
  | cons i is ih =>
    simp [Iterator.obtain_row_values_impl, ih,
      SqliteStatementWrapper.obtain_column_value]

theorem advanceK_succ (k : Nat) (it : Iterator) (s : SqliteStatementWrapper) :
    advanceK (k + 1) (it, s) =
      match it.inc s with
      | (.ok it1, s1) => advanceK k (it1, s1)
      | (.error e, _) => .error e := rfl

theorem advanceK_one (it : Iterator) (s : SqliteStatementWrapper) :
    advanceK 1 (it, s) =
      match it.inc s with
      | (.ok it1, s1) => .ok (it1, s1)
      | (.error e, _) => .error e := rfl

theorem make_begin_of_rows (rows : List (List Nat)) (sid : Nat)
    (h : 0 < rows.length) :
    Iterator.make sid 0 (freshStmt rows) =
      (⟨sid, (1 : Int)⟩, ⟨rows, 1, 0, [], []⟩) := by
  simp [Iterator.make, freshStmt, SqliteStatementWrapper.step, POSITION_END, h]

theorem make_begin_of_empty (rows : List (List Nat)) (sid : Nat)
    (h : ¬ 0 < rows.length) :
    Iterator.make sid 0 (freshStmt rows) =
      (⟨sid, POSITION_END⟩, ⟨rows, 1, 0, [], []⟩) := by
  simp [Iterator.make, freshStmt, SqliteStatementWrapper.step, POSITION_END, h]

/-! ### Claim theorems -/

/-- C2: constructing the begin iterator of a Row Sequence immediately steps
the statement handle exactly once (the cursor advances by one and nothing
else in the handle changes); if that step reports a row available the
iterator's position is the non-end row index 1, and if it reports no rows
the position is the end sentinel — the existence check happens at
construction, never at the first advancement. -/
theorem begin_steps_once_and_prefetches (q : QueryResult)
    (s : SqliteStatementWrapper) :
    (q.begin s).2 = { s with pos := s.pos + 1 } ∧
    (s.pos < s.rows.length →
      (q.begin s).1.next_row_idx = 1 ∧ (q.begin s).1.next_row_idx ≠ POSITION_END) ∧
    (¬ s.pos < s.rows.length → (q.begin s).1.next_row_idx = POSITION_END) := by
  unfold QueryResult.begin Iterator.make SqliteStatementWrapper.step
  by_cases h : s.pos < s.rows.length <;> simp [h, POSITION_END]

/-- Demonstrates C2's two branches at concrete inputs: a one-row result set
(step reports a row) and an empty result set (step reports none). -/
theorem begin_steps_once_and_prefetches_w :
    ((⟨0⟩ : QueryResult).begin (freshStmt [[10]])).2 =
      { freshStmt [[10]] with pos := (freshStmt [[10]]).pos + 1 } ∧
    ((⟨0⟩ : QueryResult).begin (freshStmt [[10]])).1.next_row_idx = 1 ∧
    ((⟨0⟩ : QueryResult).begin (freshStmt [])).1.next_row_idx = POSITION_END := by
  refine ⟨(begin_steps_once_and_prefetches ⟨0⟩ (freshStmt [[10]])).1,
    ((begin_steps_once_and_prefetches ⟨0⟩ (freshStmt [[10]])).2.1 (by decide)).1,
    (begin_steps_once_and_prefetches ⟨0⟩ (freshStmt [])).2.2 (by decide)⟩

/-- C3: the bind-error check raises `SqliteException` if and only if the
native bind return code is not `SQLITE_OK`; the raised message embeds the
handle's last bound parameter index and the string form of the bound value;
on the success code it returns without raising and leaves the statement
state unchanged. -/
theorem check_and_report_bind_error_iff (s : SqliteStatementWrapper)
    (rc : Int) (v : String) :
    (rc ≠ SQLITE_OK → ∃ msg,
      s.check_and_report_bind_error rc v = .error ⟨msg⟩ ∧
      ∃ pre mid post,
        msg = pre ++ toString s.last_bound_parameter_index ++ mid ++ v ++ post) ∧
    (rc = SQLITE_OK → s.check_and_report_bind_error rc v = .ok s) := by
  constructor
  · intro h
    refine ⟨"SQLite error when binding parameter " ++
        toString s.last_bound_parameter_index ++ " to value '" ++ v ++
        ("'. Return code: " ++ toString rc), ?_,
      "SQLite error when binding parameter ", " to value '",
      "'. Return code: " ++ toString rc, rfl⟩
    simp [SqliteStatementWrapper.check_and_report_bind_error, h]
  · intro h
    simp [SqliteStatementWrapper.check_and_report_bind_error, h]

/-- Demonstrates C3 at a concrete input — the spec's scenario of binding
parameter 1 where the engine rejects the value (`SQLITE_MISMATCH` = 20)
raises with index 1 embedded, and the success code raises nothing. -/
theorem check_and_report_bind_error_iff_w :
    (∃ msg, (⟨[], 0, 1, [], []⟩ : SqliteStatementWrapper).check_and_report_bind_error
        20 "5" = .error ⟨msg⟩ ∧
      ∃ pre mid post, msg = pre ++
        toString (⟨[], 0, 1, [], []⟩ : SqliteStatementWrapper).last_bound_parameter_index ++
        mid ++ "5" ++ post) ∧
    (⟨[], 0, 1, [], []⟩ : SqliteStatementWrapper).check_and_report_bind_error
        SQLITE_OK "5" = .ok ⟨[], 0, 1, [], []⟩ :=
  ⟨(check_and_report_bind_error_iff ⟨[], 0, 1, [], []⟩ 20 "5").1 (by decide),
   (check_and_report_bind_error_iff ⟨[], 0, 1, [], []⟩ SQLITE_OK "5").2 rfl⟩

/-- C4: two cursor positions are equal iff they reference the same statement
handle and the same logical row count (or both are at the end sentinel, which
under the shared handle is the same stored count), and `operator!=` is the
exact negation of `operator==`. -/
theorem iterator_equality_spec (a b : Iterator) :
    (a.eq b = true ↔ a.statement = b.statement ∧
      (a.next_row_idx = b.next_row_idx ∨
        (a.next_row_idx = POSITION_END ∧ b.next_row_idx = POSITION_END))) ∧
    a.ne b = !(a.eq b) := by
  refine ⟨?_, rfl⟩
  simp only [Iterator.eq, Bool.and_eq_true, beq_iff_eq]
  constructor
  · rintro ⟨h1, h2⟩
    exact ⟨h1, Or.inl h2⟩
  · rintro ⟨h1, h2 | ⟨h2, h3⟩⟩
    · exact ⟨h1, h2⟩
    · exact ⟨h1, h2.trans h3.symm⟩

/-- C5: dereferencing a cursor assembles the fixed-arity row by reading each
declared column position through the codec in strictly ascending 0-indexed
order (`0, …, n-1`), and does not advance the cursor: the statement state —
in particular the cursor position — is the same before and after. -/
theorem deref_reads_columns_in_order (it : Iterator) (n : Nat)
    (s : SqliteStatementWrapper) :
    (it.deref n s).1 = (List.range n).map (fun i => (s.obtain_column_value i).1) ∧
    (it.deref n s).1.length = n ∧
    (it.deref n s).2 = s ∧
    ((it.deref n s).2).pos = s.pos := by
  have h := obtain_row_values_impl_run it s (List.range n)
  simp [Iterator.deref, h]

/-- C6: the variadic bind form produces exactly the same final handle state
and the same raised errors as the equivalent left-to-right sequence of
single bind calls on the same values. -/
theorem bindVariadic_eq_bindSeq (s : SqliteStatementWrapper)
    (v1 v2 : BindValue) (vs : List BindValue) :
    s.bindVariadic v1 v2 vs = s.bindSeq (v1 :: v2 :: vs) := by
  induction vs generalizing s v1 v2 with
  | nil =>
    cases h1 : s.bind v1 with
    | error e =>
      simp [SqliteStatementWrapper.bindVariadic, SqliteStatementWrapper.bindSeq, h1]
    | ok s1 =>
      cases h2 : s1.bind v2 <;>
        simp [SqliteStatementWrapper.bindVariadic, SqliteStatementWrapper.bindSeq,
          h1, h2]
  | cons v3 vs ih =>
    cases h1 : s.bind v1 with
    | error e =>
      simp [SqliteStatementWrapper.bindVariadic, SqliteStatementWrapper.bindSeq, h1]
    | ok s1 =>
      simp [SqliteStatementWrapper.bindVariadic, SqliteStatementWrapper.bindSeq,
        h1, ih]

/-- C7: every (successful) `execute_and_reset` leaves the parameter index
counter at zero and the Blob Lifetime Cache empty. -/
theorem execute_and_reset_clears (s : SqliteStatementWrapper) :
    (s.execute_and_reset).last_bound_parameter_index = 0 ∧
    (s.execute_and_reset).written_blobs_cache = [] :=
  ⟨rfl, rfl⟩

/-- C10: constructing the end iterator (as `QueryResult::end` does, at
`POSITION_END`) never steps the statement handle — the returned statement
state, cursor position included, is exactly the input state. -/
theorem endIter_does_not_step (q : QueryResult) (s : SqliteStatementWrapper) :
    q.endIter s = (⟨q.statement, POSITION_END⟩, s) := by
  simp [QueryResult.endIter, Iterator.make]

/-- C1: over a result set of N rows, the iterator obtained from `begin`
advances (via `operator++`) exactly N times before reaching the end
sentinel — after any k < N advances it is not at the sentinel, and after N it
is — and a further `operator++` on the sentinel iterator throws the
cursor-error exception, leaving the statement handle unstepped (its state is
returned unchanged). -/
theorem rowSequence_advances_exactly_n (rows : List (List Nat)) (sid : Nat) :
    (∀ k, k < rows.length →
      ∃ it s, advanceK k (Iterator.make sid 0 (freshStmt rows)) = .ok (it, s) ∧
        it.next_row_idx ≠ POSITION_END) ∧
    (∃ it s,
      advanceK rows.length (Iterator.make sid 0 (freshStmt rows)) = .ok (it, s) ∧
      it.next_row_idx = POSITION_END ∧
      (it.inc s).1 = .error ⟨"Cannot increment result iterator beyond result set!"⟩ ∧
      (it.inc s).2 = s) := by
  rcases Nat.eq_zero_or_pos rows.length with h0 | hpos
  · constructor
    · intro k hk; omega
    · refine ⟨⟨sid, POSITION_END⟩, ⟨rows, 1, 0, [], []⟩, ?_, rfl, ?_, ?_⟩
      · rw [make_begin_of_empty rows sid (by omega), h0]
        rfl
      · rw [inc_of_end _ rfl]
      · rw [inc_of_end _ rfl]
  · have hmk := make_begin_of_rows rows sid hpos
    constructor
    · intro k hk
      have hrun := advanceK_run rows sid 0 [] [] k 1 le_rfl (by omega)
      simp only [Nat.cast_one] at hrun
      rw [hmk, hrun]
      refine ⟨_, _, rfl, ?_⟩
      simp only [POSITION_END]
      omega
    · have hrun := advanceK_run rows sid 0 [] [] (rows.length - 1) 1 le_rfl (by omega)
      simp only [Nat.cast_one] at hrun
      have h1k : 1 + (rows.length - 1) = rows.length := by omega
      rw [h1k] at hrun
      have hlast : Iterator.inc ⟨sid, (rows.length : Int)⟩
          ⟨rows, rows.length, 0, [], []⟩ =
          (.ok ⟨sid, POSITION_END⟩, ⟨rows, rows.length + 1, 0, [], []⟩) := by
        have h1 : ((rows.length : Int)) ≠ POSITION_END := by
          simp only [POSITION_END]; omega
        have h2 : ¬ ((⟨rows, rows.length, 0, [], []⟩ : SqliteStatementWrapper).pos <
            (⟨rows, rows.length, 0, [], []⟩ : SqliteStatementWrapper).rows.length) := by
          show ¬ rows.length < rows.length; omega
        simpa using inc_of_done h1 h2
      refine ⟨⟨sid, POSITION_END⟩, ⟨rows, rows.length + 1, 0, [], []⟩, ?_, rfl, ?_, ?_⟩
      · rw [hmk]
        have hsplit : rows.length = (rows.length - 1) + 1 := by omega
        conv_lhs => rw [hsplit]
        rw [advanceK_add, hrun]
        simp only [Except.bind]
        rw [advanceK_one, hlast]
      · rw [inc_of_end _ rfl]
      · rw [inc_of_end _ rfl]

/-- Demonstrates C1 at a two-row result set: two advances reach the end
sentinel, one advance does not, and advancing the sentinel iterator throws
while leaving the handle state untouched. -/
theorem rowSequence_advances_exactly_n_w :
    (∃ it s, advanceK 1 (Iterator.make 0 0 (freshStmt [[10], [20]])) = .ok (it, s) ∧
      it.next_row_idx ≠ POSITION_END) ∧
    (∃ it s,
      advanceK 2 (Iterator.make 0 0 (freshStmt [[10], [20]])) = .ok (it, s) ∧
      it.next_row_idx = POSITION_END ∧
      (it.inc s).1 = .error ⟨"Cannot increment result iterator beyond result set!"⟩ ∧
      (it.inc s).2 = s) :=
  ⟨(rowSequence_advances_exactly_n [[10], [20]] 0).1 1 (by decide),
   (rowSequence_advances_exactly_n [[10], [20]] 0).2⟩

/-- C8: on an iterator not at the end sentinel, the copy returned by
post-increment retains the old logical index (it is the pre-increment
iterator itself), but dereferencing it after the call reads through the
shared statement's current cursor state — the cursor has advanced by one, so
the values obtained are the columns of the advanced-to row (`rows[pos]`
0-based), the same values the incremented iterator yields, not the row that
was current at the call. -/
theorem postInc_reads_advanced_row (it : Iterator) (s : SqliteStatementWrapper)
    (n : Nat) (h : it.next_row_idx ≠ POSITION_END) :
    ∃ nw, (it.postInc s).1 = .ok (it, nw) ∧
      ((it.postInc s).2).pos = s.pos + 1 ∧
      (Iterator.deref it n ((it.postInc s).2)).1 =
        (Iterator.deref nw n ((it.postInc s).2)).1 ∧
      (Iterator.deref it n ((it.postInc s).2)).1 =
        (List.range n).map
          (fun i => ((((it.postInc s).2).currentRow).getD i 0)) ∧
      ((it.postInc s).2).currentRow = s.rows.getD s.pos [] := by
  by_cases hr : s.pos < s.rows.length
  · have hinc := inc_of_row h hr
    refine ⟨{ it with next_row_idx := it.next_row_idx + 1 }, ?_⟩
    simp [Iterator.postInc, hinc, Iterator.deref, obtain_row_values_impl_run,
      SqliteStatementWrapper.obtain_column_value, SqliteStatementWrapper.currentRow]
  · have hinc := inc_of_done h hr
    refine ⟨{ it with next_row_idx := POSITION_END }, ?_⟩
    simp [Iterator.postInc, hinc, Iterator.deref, obtain_row_values_impl_run,
      SqliteStatementWrapper.obtain_column_value, SqliteStatementWrapper.currentRow]

/-- Demonstrates C8 at a concrete input: with result set [[10],[20]] and the
cursor on row 1 (values [10]), the copy post-increment returns dereferences
to [20] — the advanced-to row, not the one current at the call. -/
theorem postInc_reads_advanced_row_w :
    (∃ nw, ((⟨0, 1⟩ : Iterator).postInc
        (⟨[[10], [20]], 1, 0, [], []⟩ : SqliteStatementWrapper)).1 = .ok (⟨0, 1⟩, nw) ∧
      (((⟨0, 1⟩ : Iterator).postInc
        (⟨[[10], [20]], 1, 0, [], []⟩ : SqliteStatementWrapper)).2).pos =
        (⟨[[10], [20]], 1, 0, [], []⟩ : SqliteStatementWrapper).pos + 1 ∧
      (Iterator.deref ⟨0, 1⟩ 1 (((⟨0, 1⟩ : Iterator).postInc
        (⟨[[10], [20]], 1, 0, [], []⟩ : SqliteStatementWrapper)).2)).1 =
        (Iterator.deref nw 1 (((⟨0, 1⟩ : Iterator).postInc
          (⟨[[10], [20]], 1, 0, [], []⟩ : SqliteStatementWrapper)).2)).1 ∧
      (Iterator.deref ⟨0, 1⟩ 1 (((⟨0, 1⟩ : Iterator).postInc
        (⟨[[10], [20]], 1, 0, [], []⟩ : SqliteStatementWrapper)).2)).1 =
        (List.range 1).map
          (fun i => (((((⟨0, 1⟩ : Iterator).postInc
            (⟨[[10], [20]], 1, 0, [], []⟩ : SqliteStatementWrapper)).2).currentRow).getD i 0)) ∧
      (((⟨0, 1⟩ : Iterator).postInc
        (⟨[[10], [20]], 1, 0, [], []⟩ : SqliteStatementWrapper)).2).currentRow =
        (⟨[[10], [20]], 1, 0, [], []⟩ : SqliteStatementWrapper).rows.getD
          (⟨[[10], [20]], 1, 0, [], []⟩ : SqliteStatementWrapper).pos []) ∧
    (Iterator.deref ⟨0, 1⟩ 1 (((⟨0, 1⟩ : Iterator).postInc
      (⟨[[10], [20]], 1, 0, [], []⟩ : SqliteStatementWrapper)).2)).1 = [20] :=
  ⟨postInc_reads_advanced_row ⟨0, 1⟩ ⟨[[10], [20]], 1, 0, [], []⟩ 1 (by decide),
   by decide⟩

/-- C9's counterexample: over the fresh two-row result set [[10],[20]], rows
remain after the first `begin` (the cursor is at position 1 of 2), the two
`begin` calls together step the cursor twice, yet the second begin iterator's
logical position is NOT one greater than the first's — both are 1. -/
theorem begin_twice_not_one_greater :
    (((⟨0⟩ : QueryResult).begin (freshStmt [[10], [20]])).2).pos <
      (freshStmt [[10], [20]]).rows.length ∧
    (((⟨0⟩ : QueryResult).begin
      (((⟨0⟩ : QueryResult).begin (freshStmt [[10], [20]])).2)).2).pos = 2 ∧
    ¬ ((((⟨0⟩ : QueryResult).begin
        (((⟨0⟩ : QueryResult).begin (freshStmt [[10], [20]])).2)).1).next_row_idx =
      (((⟨0⟩ : QueryResult).begin (freshStmt [[10], [20]])).1).next_row_idx + 1) := by
  decide

/-- C9 (amended): every call to `begin` steps the shared native cursor once —
`begin` is not side-effect-free, so calling it twice on the same Row Sequence
over the same handle consumes two rows — but the second begin iterator (when
rows remain) has the SAME logical position as the first, namely 1: logical
row indices restart at each construction, only the shared cursor is one row
further. -/
theorem begin_twice_consumes_two_rows (q : QueryResult)
    (s : SqliteStatementWrapper) (h : s.pos + 2 ≤ s.rows.length) :
    ((q.begin s).2).pos = s.pos + 1 ∧
    ((q.begin ((q.begin s).2)).2).pos = s.pos + 2 ∧
    ((q.begin ((q.begin s).2)).1).next_row_idx = ((q.begin s).1).next_row_idx ∧
    ((q.begin s).1).next_row_idx = 1 := by
  have h1 : s.pos < s.rows.length := by omega
  have h2 : s.pos + 1 < s.rows.length := by omega
  simp [QueryResult.begin, Iterator.make, SqliteStatementWrapper.step,
    POSITION_END, h1, h2]

/-- Demonstrates C9's amendment at the fresh two-row result set. -/
theorem begin_twice_consumes_two_rows_w :
    (((⟨0⟩ : QueryResult).begin (freshStmt [[10], [20]])).2).pos =
      (freshStmt [[10], [20]]).pos + 1 ∧
    (((⟨0⟩ : QueryResult).begin
      (((⟨0⟩ : QueryResult).begin (freshStmt [[10], [20]])).2)).2).pos =
      (freshStmt [[10], [20]]).pos + 2 ∧
    (((⟨0⟩ : QueryResult).begin
      (((⟨0⟩ : QueryResult).begin (freshStmt [[10], [20]])).2)).1).next_row_idx =
      (((⟨0⟩ : QueryResult).begin (freshStmt [[10], [20]])).1).next_row_idx ∧
    (((⟨0⟩ : QueryResult).begin (freshStmt [[10], [20]])).1).next_row_idx = 1 :=
  begin_twice_consumes_two_rows ⟨0⟩ (freshStmt [[10], [20]]) (by decide)

end Rosbag2Sqlite
